import Mathlib

/-!
Verification of the Korea trip budget calculator (src/app.py).

The program is a single-screen budget model: locked constants (FX rate,
nights, flight, accommodation, foreigner multiplier), five user-editable
KRW amounts, and derived totals computed by summation and multiplication.
We embed the arithmetic shallowly over ℚ (the Python code computes over
ints and floats; every quantity appearing in the model is a rational with
small denominator, e.g. the multiplier 2.7 = 27/10, so ℚ represents each
computation exactly).
-/

namespace KoreaTrip

/-- Locked constant: FX rate, src/app.py line 8. -/
def FX_KRW_PER_USD : ℚ := 1447

/-- Locked constant: trip length in nights, src/app.py line 9. -/
def NIGHTS : ℚ := 7

/-- Locked constant: flight cost in USD, src/app.py line 10. -/
def FLIGHT_USD : ℚ := 1500

/-- Locked constant: accommodation cost in USD per person, src/app.py line 11. -/
def ACCOM_WEEK_USD_PER_PERSON : ℚ := 100

/-- Locked constant: solo on-ground cost multiplier 2.7, src/app.py line 15. -/
def FOREIGNER_MULTIPLIER_ON_GROUND : ℚ := 27 / 10

/-- Helper `usd_to_krw`, src/app.py lines 20-21. -/
def usd_to_krw (usd : ℚ) : ℚ := usd * FX_KRW_PER_USD

/-- Helper `krw_to_usd`, src/app.py lines 23-24. -/
def krw_to_usd (krw : ℚ) : ℚ := krw / FX_KRW_PER_USD

/-- The three fixed daily baseline amounts (KRW/day): food 35000,
transit 10000, activities 40000; src/app.py lines 36-40. -/
def DAILY_FIXED : List ℚ := [35000, 10000, 40000]

/-- The five editable amounts supplied by the number-input widgets:
two daily categories (cafes/snacks, shopping) and three one-time
categories (SIM/eSIM, airport train, buffer). -/
structure EditableInputs where
  cafesSnacks : ℚ
  shopping : ℚ
  simEsim : ℚ
  airportTrain : ℚ
  buffer : ℚ
deriving DecidableEq, Repr

/-- The default values of the editable inputs, src/app.py lines 43-53. -/
def default_inputs : EditableInputs :=
  { cafesSnacks := 8000, shopping := 15000,
    simEsim := 30000, airportTrain := 12000, buffer := 40000 }

/-- Flight in KRW, src/app.py line 74. -/
def flight_krw : ℚ := usd_to_krw FLIGHT_USD

/-- Accommodation in KRW, src/app.py line 75. -/
def accom_krw : ℚ := usd_to_krw ACCOM_WEEK_USD_PER_PERSON

/-- `daily_total_krw = sum(edited_daily.values())`, src/app.py line 107:
the fixed daily dict extended with the two editable daily amounts. -/
def daily_total_krw (e : EditableInputs) : ℚ :=
  DAILY_FIXED.sum + e.cafesSnacks + e.shopping

/-- `daily_trip_total_krw = daily_total_krw * NIGHTS`, src/app.py line 108. -/
def daily_trip_total_krw (e : EditableInputs) : ℚ :=
  daily_total_krw e * NIGHTS

/-- `one_time_total_krw = sum(edited_one_time.values())`, src/app.py line 127. -/
def one_time_total_krw (e : EditableInputs) : ℚ :=
  e.simEsim + e.airportTrain + e.buffer

/-- `with_robin_on_ground_krw`, src/app.py line 135. -/
def with_robin_on_ground_krw (e : EditableInputs) : ℚ :=
  daily_trip_total_krw e + one_time_total_krw e + accom_krw

/-- `with_robin_total_krw`, src/app.py line 136 (the grand total). -/
def with_robin_total_krw (e : EditableInputs) : ℚ :=
  with_robin_on_ground_krw e + flight_krw

/-- `solo_on_ground_krw`, src/app.py line 168. -/
def solo_on_ground_krw (e : EditableInputs) : ℚ :=
  with_robin_on_ground_krw e * FOREIGNER_MULTIPLIER_ON_GROUND

/-- `solo_total_krw`, src/app.py line 169: flight added unscaled. -/
def solo_total_krw (e : EditableInputs) : ℚ :=
  solo_on_ground_krw e + flight_krw

/-- `savings_krw = max(solo_total_krw - with_robin_total_krw, 0)`,
src/app.py line 171. -/
def savings_krw (e : EditableInputs) : ℚ :=
  max (solo_total_krw e - with_robin_total_krw e) 0

/-- `pct_cheaper = 1 - (1 / FOREIGNER_MULTIPLIER_ON_GROUND)`,
src/app.py line 181. -/
def pct_cheaper : ℚ :=
  1 - 1 / FOREIGNER_MULTIPLIER_ON_GROUND

/-- All derived totals of one evaluation pass, as listed by the spec
(DerivedTotals): the model output consumed by the presentation layer. -/
structure DerivedTotals where
  dailyTotalKrw : ℚ
  dailyTripTotalKrw : ℚ
  oneTimeTotalKrw : ℚ
  flightKrw : ℚ
  accommodationKrw : ℚ
  onGroundTotalKrw : ℚ
  grandTotalKrw : ℚ
  grandTotalUsd : ℚ
  soloOnGroundKrw : ℚ
  soloTotalKrw : ℚ
  savingsKrw : ℚ
  savingsUsd : ℚ
deriving DecidableEq, Repr

/-- One full evaluation of the budget model (src/app.py lines 74-200):
every derived quantity computed from the editable inputs. -/
def deriveTotals (e : EditableInputs) : DerivedTotals :=
  { dailyTotalKrw := daily_total_krw e,
    dailyTripTotalKrw := daily_trip_total_krw e,
    oneTimeTotalKrw := one_time_total_krw e,
    flightKrw := flight_krw,
    accommodationKrw := accom_krw,
    onGroundTotalKrw := with_robin_on_ground_krw e,
    grandTotalKrw := with_robin_total_krw e,
    grandTotalUsd := krw_to_usd (with_robin_total_krw e),
    soloOnGroundKrw := solo_on_ground_krw e,
    soloTotalKrw := solo_total_krw e,
    savingsKrw := savings_krw e,
    savingsUsd := krw_to_usd (savings_krw e) }

/-- The keyword arguments of one `st.number_input` call: the boundary
constraint the widget enforces on the value it returns. -/
structure NumberInputSpec where
  min_value : ℤ
  max_value : ℤ
  value : ℤ
  step : ℤ
deriving DecidableEq, Repr

/-- The `st.number_input` call for the cafes/snacks daily category,
src/app.py lines 99-105 with the default from line 44. -/
def cafes_input : NumberInputSpec :=
  { min_value := 0, max_value := 500000, value := 8000, step := 1000 }

/-- The `st.number_input` call for the shopping daily category,
src/app.py lines 99-105 with the default from line 45. -/
def shopping_input : NumberInputSpec :=
  { min_value := 0, max_value := 500000, value := 15000, step := 1000 }

/-- The `st.number_input` call for the SIM/eSIM one-time category,
src/app.py lines 120-126 with the default from line 50. -/
def sim_input : NumberInputSpec :=
  { min_value := 0, max_value := 500000, value := 30000, step := 1000 }

/-- The `st.number_input` call for the airport train one-time category,
src/app.py lines 120-126 with the default from line 51. -/
def arex_input : NumberInputSpec :=
  { min_value := 0, max_value := 500000, value := 12000, step := 1000 }

/-- The `st.number_input` call for the buffer one-time category,
src/app.py lines 120-126 with the default from line 52. -/
def buffer_input : NumberInputSpec :=
  { min_value := 0, max_value := 500000, value := 40000, step := 1000 }

/-- A value the widget can hand to the model: clamped to
[min_value, max_value] at the input boundary. -/
def NumberInputSpec.allows (s : NumberInputSpec) (v : ℤ) : Prop :=
  s.min_value ≤ v ∧ v ≤ s.max_value

/-- Claim C1: for every value of the five editable KRW inputs, the grand
total decomposes as dailyTripTotal + oneTimeTotal + accommodation + flight,
and the on-ground subtotal includes accommodation but excludes the flight. -/
theorem grand_total_decomposition (e : EditableInputs) :
    with_robin_total_krw e =
      daily_trip_total_krw e + one_time_total_krw e + accom_krw + flight_krw ∧
    with_robin_on_ground_krw e =
      daily_trip_total_krw e + one_time_total_krw e + accom_krw :=
  ⟨rfl, rfl⟩

/-- Claim C2: the solo estimate scales only the on-ground subtotal by the
fixed multiplier 2.7 and adds the flight cost unscaled. -/
theorem solo_total_formula (e : EditableInputs) :
    solo_total_krw e =
      with_robin_on_ground_krw e * FOREIGNER_MULTIPLIER_ON_GROUND + flight_krw :=
  rfl

/-- Claim C3: savingsKrw equals max(soloTotal - grandTotal, 0) and is
non-negative for every value of the editable inputs; the clamp keeps it
non-negative even for a hypothetical multiplier below 1 (last conjunct:
the same clamped expression with the multiplier generalised to any m). -/
theorem savings_nonneg (e : EditableInputs) :
    savings_krw e = max (solo_total_krw e - with_robin_total_krw e) 0 ∧
    0 ≤ savings_krw e ∧
    ∀ m : ℚ,
      0 ≤ max (with_robin_on_ground_krw e * m + flight_krw - with_robin_total_krw e) 0 :=
  ⟨rfl, le_max_right _ _, fun _ => le_max_right _ _⟩

/-- Claim C4: with every editable field at its default and the locked
constants nights = 7, fx = 1447, flight = 1500 USD, accommodation = 100 USD,
the model yields dailyTotalKrw = 108000, onGroundTotalKrw = 982700,
grandTotalKrw = 3153200, soloTotalKrw = 4823790 and savingsKrw = 1670590. -/
theorem default_scenario_totals :
    NIGHTS = 7 ∧ FX_KRW_PER_USD = 1447 ∧ FLIGHT_USD = 1500 ∧
    ACCOM_WEEK_USD_PER_PERSON = 100 ∧
    daily_total_krw default_inputs = 108000 ∧
    with_robin_on_ground_krw default_inputs = 982700 ∧
    with_robin_total_krw default_inputs = 3153200 ∧
    solo_total_krw default_inputs = 4823790 ∧
    savings_krw default_inputs = 1670590 := by
  refine ⟨rfl, rfl, rfl, rfl, ?_, ?_, ?_, ?_, ?_⟩ <;>
    norm_num [savings_krw, solo_total_krw, solo_on_ground_krw,
      with_robin_total_krw, with_robin_on_ground_krw, daily_trip_total_krw,
      one_time_total_krw, daily_total_krw, default_inputs, DAILY_FIXED,
      flight_krw, accom_krw, usd_to_krw, FX_KRW_PER_USD, NIGHTS, FLIGHT_USD,
      ACCOM_WEEK_USD_PER_PERSON, FOREIGNER_MULTIPLIER_ON_GROUND]

/-- Claim C5: with the fixed rate 1447 KRW per USD, the USD/KRW conversions
are mutually inverse; over exact rational arithmetic the round trip returns
the argument exactly, hence in particular within any tolerance. -/
theorem usd_krw_round_trip (x : ℚ) :
    krw_to_usd (usd_to_krw x) = x ∧ usd_to_krw (krw_to_usd x) = x := by
  constructor <;>
    · unfold krw_to_usd usd_to_krw FX_KRW_PER_USD
      field_simp

/-- Claim C6: the budget model is deterministic: two evaluations with
identical inputs (the locked constants are fixed definitions, so they are
identical by construction) produce identical DerivedTotals; `deriveTotals`
is a pure function with no hidden state. -/
theorem model_deterministic (e₁ e₂ : EditableInputs) (h : e₁ = e₂) :
    deriveTotals e₁ = deriveTotals e₂ :=
  congrArg deriveTotals h

/-- Witness for C6 at the default inputs. -/
theorem model_deterministic_witness :
    deriveTotals default_inputs = deriveTotals default_inputs :=
  model_deterministic default_inputs default_inputs rfl

/-- Claim C7: the FX constant is nonzero (so the only divisions, the USD
conversions, are by a nonzero constant), and for non-negative editable
inputs every derived total is non-negative; over ℚ every value is finite
and evaluation is a total function, so no exception can arise. -/
theorem model_safety (e : EditableInputs)
    (h1 : 0 ≤ e.cafesSnacks) (h2 : 0 ≤ e.shopping) (h3 : 0 ≤ e.simEsim)
    (h4 : 0 ≤ e.airportTrain) (h5 : 0 ≤ e.buffer) :
    FX_KRW_PER_USD ≠ 0 ∧
    0 ≤ daily_total_krw e ∧ 0 ≤ daily_trip_total_krw e ∧
    0 ≤ one_time_total_krw e ∧ 0 ≤ flight_krw ∧ 0 ≤ accom_krw ∧
    0 ≤ with_robin_on_ground_krw e ∧ 0 ≤ with_robin_total_krw e ∧
    0 ≤ krw_to_usd (with_robin_total_krw e) ∧
    0 ≤ solo_on_ground_krw e ∧ 0 ≤ solo_total_krw e ∧
    0 ≤ savings_krw e ∧ 0 ≤ krw_to_usd (savings_krw e) := by
  have hd : 0 ≤ daily_total_krw e := by
    simp only [daily_total_krw, DAILY_FIXED, List.sum_cons, List.sum_nil]
    linarith
  have hdt : 0 ≤ daily_trip_total_krw e := by
    simp only [daily_trip_total_krw, NIGHTS]
    exact mul_nonneg hd (by norm_num)
  have hot : 0 ≤ one_time_total_krw e := by
    simp only [one_time_total_krw]; linarith
  have hfl : 0 ≤ flight_krw := by
    norm_num [flight_krw, usd_to_krw, FLIGHT_USD, FX_KRW_PER_USD]
  have hac : 0 ≤ accom_krw := by
    norm_num [accom_krw, usd_to_krw, ACCOM_WEEK_USD_PER_PERSON, FX_KRW_PER_USD]
  have hog : 0 ≤ with_robin_on_ground_krw e := by
    simp only [with_robin_on_ground_krw]; linarith
  have hgt : 0 ≤ with_robin_total_krw e := by
    simp only [with_robin_total_krw]; linarith
  have hgtu : 0 ≤ krw_to_usd (with_robin_total_krw e) := by
    simp only [krw_to_usd, FX_KRW_PER_USD]
    exact div_nonneg hgt (by norm_num)
  have hsog : 0 ≤ solo_on_ground_krw e := by
    simp only [solo_on_ground_krw, FOREIGNER_MULTIPLIER_ON_GROUND]
    exact mul_nonneg hog (by norm_num)
  have hst : 0 ≤ solo_total_krw e := by
    simp only [solo_total_krw]; linarith
  have hsv : 0 ≤ savings_krw e := le_max_right _ _
  have hsvu : 0 ≤ krw_to_usd (savings_krw e) := by
    simp only [krw_to_usd, FX_KRW_PER_USD]
    exact div_nonneg hsv (by norm_num)
  exact ⟨by norm_num [FX_KRW_PER_USD], hd, hdt, hot, hfl, hac, hog, hgt,
    hgtu, hsog, hst, hsv, hsvu⟩

/-- Witness for C7 at the default inputs. -/
theorem model_safety_witness :
    FX_KRW_PER_USD ≠ 0 ∧
    0 ≤ daily_total_krw default_inputs ∧
    0 ≤ daily_trip_total_krw default_inputs ∧
    0 ≤ one_time_total_krw default_inputs ∧ 0 ≤ flight_krw ∧ 0 ≤ accom_krw ∧
    0 ≤ with_robin_on_ground_krw default_inputs ∧
    0 ≤ with_robin_total_krw default_inputs ∧
    0 ≤ krw_to_usd (with_robin_total_krw default_inputs) ∧
    0 ≤ solo_on_ground_krw default_inputs ∧
    0 ≤ solo_total_krw default_inputs ∧
    0 ≤ savings_krw default_inputs ∧
    0 ≤ krw_to_usd (savings_krw default_inputs) :=
  model_safety default_inputs (by norm_num [default_inputs])
    (by norm_num [default_inputs]) (by norm_num [default_inputs])
    (by norm_num [default_inputs]) (by norm_num [default_inputs])

/-- Claim C8: the displayed percent-cheaper ratio equals
1 - 1/foreignerMultiplier exactly; with the fixed multiplier 2.7 its value
is 17/27, a constant derived from the multiplier alone (`pct_cheaper` takes
no editable input). -/
theorem pct_cheaper_formula :
    pct_cheaper = 1 - 1 / FOREIGNER_MULTIPLIER_ON_GROUND ∧
    pct_cheaper = 17 / 27 := by
  constructor
  · rfl
  · norm_num [pct_cheaper, FOREIGNER_MULTIPLIER_ON_GROUND]

/-- Claim C9: each of the five editable number inputs is constrained at
the widget boundary to the closed range [0, 500000] with step 1000, so
every value it can hand to the model is non-negative; the final conjunct
in the goal shows the model itself performs no further validation (a
negative amount, were it ever supplied, would pass straight through the
raw sum). -/
theorem editable_input_bounds (s : NumberInputSpec)
    (hs : s ∈ [cafes_input, shopping_input, sim_input, arex_input, buffer_input])
    (v : ℤ) (hv : s.allows v) :
    s.min_value = 0 ∧ s.max_value = 500000 ∧ s.step = 1000 ∧ 0 ≤ v ∧
    daily_total_krw
      { cafesSnacks := -1000000, shopping := 0,
        simEsim := 0, airportTrain := 0, buffer := 0 } < 0 := by
  have hmodel : daily_total_krw
      { cafesSnacks := -1000000, shopping := 0,
        simEsim := 0, airportTrain := 0, buffer := 0 } < 0 := by
    norm_num [daily_total_krw, DAILY_FIXED]
  fin_cases hs <;> exact ⟨rfl, rfl, rfl, hv.1, hmodel⟩

/-- Witness for C9 at the cafes/snacks input and its default value 8000. -/
theorem editable_input_bounds_witness :
    cafes_input.min_value = 0 ∧ cafes_input.max_value = 500000 ∧
    cafes_input.step = 1000 ∧ (0 : ℤ) ≤ 8000 ∧
    daily_total_krw
      { cafesSnacks := -1000000, shopping := 0,
        simEsim := 0, airportTrain := 0, buffer := 0 } < 0 :=
  editable_input_bounds cafes_input (by decide) 8000 ⟨by decide, by decide⟩

/-- Claim C10: with non-negative inputs (and the multiplier 2.7 ≥ 1) the
max clamp in the savings formula is inert: savings equals
onGround * (multiplier - 1) exactly, an expression in which the flight
cost has cancelled, so the savings depend only on the on-ground subtotal. -/
theorem savings_clamp_inert (e : EditableInputs)
    (h1 : 0 ≤ e.cafesSnacks) (h2 : 0 ≤ e.shopping) (h3 : 0 ≤ e.simEsim)
    (h4 : 0 ≤ e.airportTrain) (h5 : 0 ≤ e.buffer) :
    savings_krw e =
      with_robin_on_ground_krw e * (FOREIGNER_MULTIPLIER_ON_GROUND - 1) := by
  have hog : 0 ≤ with_robin_on_ground_krw e := by
    have hd : 0 ≤ daily_total_krw e := by
      simp only [daily_total_krw, DAILY_FIXED, List.sum_cons, List.sum_nil]
      linarith
    have hdt : 0 ≤ daily_trip_total_krw e := by
      simp only [daily_trip_total_krw, NIGHTS]
      exact mul_nonneg hd (by norm_num)
    have hac : 0 ≤ accom_krw := by
      norm_num [accom_krw, usd_to_krw, ACCOM_WEEK_USD_PER_PERSON, FX_KRW_PER_USD]
    simp only [with_robin_on_ground_krw, one_time_total_krw]
    linarith
  have key : solo_total_krw e - with_robin_total_krw e =
      with_robin_on_ground_krw e * (FOREIGNER_MULTIPLIER_ON_GROUND - 1) := by
    unfold solo_total_krw solo_on_ground_krw with_robin_total_krw
    ring
  have hmul : 0 ≤ with_robin_on_ground_krw e * (FOREIGNER_MULTIPLIER_ON_GROUND - 1) :=
    mul_nonneg hog (by norm_num [FOREIGNER_MULTIPLIER_ON_GROUND])
  unfold savings_krw
  rw [key, max_eq_left hmul]

/-- Witness for C10 at the default inputs. -/
theorem savings_clamp_inert_witness :
    savings_krw default_inputs =
      with_robin_on_ground_krw default_inputs *
        (FOREIGNER_MULTIPLIER_ON_GROUND - 1) :=
  savings_clamp_inert default_inputs (by norm_num [default_inputs])
    (by norm_num [default_inputs]) (by norm_num [default_inputs])
    (by norm_num [default_inputs]) (by norm_num [default_inputs])

end KoreaTrip
